import Mathlib

/-!
# The keyboard-layout notification bridge of `src/keymapping.cc`

A shallow embedding of the notification path of the native keymap addon:
`invokeNotificationCallback`, `NotifyJS`, `FinalizeThreadsafeFunction`,
`_OnDidChangeKeyboardLayout`, `DeleteInstanceData` and the state `Init` sets up.

The addon talks to the Node-API runtime.  The runtime is not part of the
repository, so it is represented by

* a `World`: the per-instance record the addon allocates, the thread-safe
  functions the runtime currently holds, the queue of pending dispatch requests,
  the pending JavaScript exception, and the list of every runtime call the addon
  has issued so far (`trace`);
* the statuses of the runtime calls whose outcome depends on resources or on
  JavaScript code, which are inputs of the embedded functions.

Reading or writing the per-instance record after `delete` is a `Fault`.
-/

namespace vscode_keyboard

/-! ## Node-API vocabulary -/

/-- Status codes returned by Node-API calls. -/
inductive napi_status where
  | napi_ok
  | napi_invalid_arg
  | napi_object_expected
  | napi_string_expected
  | napi_name_expected
  | napi_function_expected
  | napi_number_expected
  | napi_boolean_expected
  | napi_array_expected
  | napi_generic_failure
  | napi_pending_exception
  | napi_cancelled
  | napi_escape_called_twice
  | napi_handle_scope_mismatch
  | napi_callback_scope_mismatch
  | napi_queue_full
  | napi_closing
  | napi_bigint_expected
  deriving DecidableEq, Repr

/-- JavaScript value types as reported by `napi_typeof`. -/
inductive napi_valuetype where
  | napi_undefined
  | napi_null
  | napi_boolean
  | napi_number
  | napi_string
  | napi_symbol
  | napi_object
  | napi_function
  | napi_external
  | napi_bigint
  deriving DecidableEq, Repr

/-- A (non-NULL) JavaScript value handle: its type and its identity. -/
structure napi_value where
  type : napi_valuetype
  ident : Nat
  deriving DecidableEq, Repr

/-- A (non-NULL) environment handle. -/
structure napi_env where
  ident : Nat
  deriving DecidableEq, Repr

/-- A (non-NULL) thread-safe function handle.  `NULL` is `none` at the use sites. -/
abbrev napi_threadsafe_function := Nat

/-- Call modes of `napi_call_threadsafe_function`. -/
inductive napi_threadsafe_function_call_mode where
  | napi_tsfn_nonblocking
  | napi_tsfn_blocking
  deriving DecidableEq, Repr

/-- The arguments a JavaScript caller passed to a native function. -/
structure napi_callback_info where
  args : List napi_value
  deriving DecidableEq, Repr

/-- Modelled from the spec: the record type `NotificationCallbackData` of
`keymapping.h` (absent from `src/`).  The spec's NotificationState holds an optional
CallbackHandle; the source only ever touches its field `tsfn`, which is `NULL`
(`none`) or a thread-safe function handle. -/
structure NotificationCallbackData where
  tsfn : Option napi_threadsafe_function
  deriving DecidableEq, Repr

/-- An error thrown into JavaScript. -/
inductive JsError where
  | assertion (message : String)
  | failed_call (status : napi_status)
  deriving DecidableEq, Repr

/-- Every call the addon issues to the runtime or to the platform layer. -/
inductive Call where
  | napi_get_instance_data
  | napi_get_cb_info
  | napi_typeof (value : napi_value)
  | napi_create_string_utf8 (str : String)
  | napi_create_threadsafe_function (func : napi_value) (max_queue_size : Nat)
      (initial_thread_count : Nat)
  | napi_call_threadsafe_function (func : napi_threadsafe_function) (data : Option Nat)
      (is_blocking : napi_threadsafe_function_call_mode)
  | napi_get_global
  | napi_call_function (recv : napi_value) (func : Option napi_value) (argc : Nat)
  | napi_get_undefined
  | napi_throw_error (err : JsError)
  | registerKeyboardLayoutChangeListener
  deriving DecidableEq, Repr

/-- Memory faults: using the per-instance record after it was deleted. -/
inductive Fault where
  | use_after_free
  | double_free
  deriving DecidableEq, Repr

/-- The state the addon and the runtime share. -/
structure World where
  /-- the per-instance record; `none` once it has been deleted -/
  data : Option NotificationCallbackData
  /-- thread-safe functions created and not yet finalized, with the wrapped function -/
  tsfns : List (napi_threadsafe_function × napi_value)
  /-- the next unused thread-safe function handle -/
  fresh : Nat
  /-- dispatch requests accepted and not yet delivered: handle and payload -/
  queue : List (napi_threadsafe_function × Option Nat)
  /-- the pending JavaScript exception -/
  exception : Option JsError
  /-- whether the platform listener has been installed -/
  listening : Bool
  /-- every call issued so far, oldest first -/
  trace : List Call
  deriving DecidableEq, Repr

/-! ## The runtime calls -/

/-- Record a call in the trace. -/
def World.log (w : World) (c : Call) : World :=
  { w with trace := w.trace ++ [c] }

/-- The JavaScript `undefined` value. -/
def js_undefined : napi_value := ⟨.napi_undefined, 0⟩

/-- The JavaScript global object. -/
def js_global : napi_value := ⟨.napi_object, 0⟩

/-- Whether the runtime still holds the thread-safe function `h`. -/
def World.live (w : World) (h : napi_threadsafe_function) : Bool :=
  (w.tsfns.lookup h).isSome

/-- The call `napi_throw_error`: the error becomes the pending exception, unless one is
pending already. -/
def napi_throw_error (err : JsError) (w : World) : World :=
  let w := w.log (.napi_throw_error err)
  match w.exception with
  | some _ => w
  | none => { w with exception := some err }

/-- The call `napi_get_instance_data`: yields the pointer `Init` stored; it succeeds on
every environment. -/
def napi_get_instance_data (w : World) : napi_status × World :=
  (.napi_ok, w.log .napi_get_instance_data)

/-- The call `napi_get_cb_info` with room for two arguments: `argc` becomes the number
of arguments actually passed, and `args` holds the first two, `undefined` where the
caller passed fewer. -/
def napi_get_cb_info (info : napi_callback_info) (w : World) :
    napi_status × Nat × napi_value × napi_value × World :=
  (.napi_ok, info.args.length, info.args.getD 0 js_undefined,
    info.args.getD 1 js_undefined, w.log .napi_get_cb_info)

/-- The call `napi_typeof`. -/
def napi_typeof (value : napi_value) (w : World) : napi_status × napi_valuetype × World :=
  (.napi_ok, value.type, w.log (.napi_typeof value))

/-- The call `napi_create_string_utf8`; its status is an input (string allocation may
fail). -/
def napi_create_string_utf8 (status : napi_status) (str : String) (w : World) :
    napi_status × napi_value × World :=
  (status, ⟨.napi_string, 0⟩, w.log (.napi_create_string_utf8 str))

/-- The call `napi_create_threadsafe_function`; its status is an input.  On `napi_ok` the
runtime holds a new thread-safe function wrapping `func` and returns its handle. -/
def napi_create_threadsafe_function (status : napi_status) (func : napi_value)
    (max_queue_size initial_thread_count : Nat) (w : World) :
    napi_status × napi_threadsafe_function × World :=
  let w := w.log (.napi_create_threadsafe_function func max_queue_size initial_thread_count)
  match status with
  | .napi_ok => (.napi_ok, w.fresh,
      { w with tsfns := w.tsfns ++ [(w.fresh, func)], fresh := w.fresh + 1 })
  | st => (st, w.fresh, w)

/-- The call `napi_call_threadsafe_function`: a request against a thread-safe function
the runtime holds is queued (the queue is unbounded, `max_queue_size = 0`); any other
handle is refused. -/
def napi_call_threadsafe_function (func : napi_threadsafe_function) (data : Option Nat)
    (is_blocking : napi_threadsafe_function_call_mode) (w : World) : napi_status × World :=
  let w := w.log (.napi_call_threadsafe_function func data is_blocking)
  if w.live func then (.napi_ok, { w with queue := w.queue ++ [(func, data)] })
  else (.napi_closing, w)

/-- The call `napi_get_global`: it succeeds on every (non-NULL) environment. -/
def napi_get_global (w : World) : napi_status × napi_value × World :=
  (.napi_ok, js_global, w.log .napi_get_global)

/-- The call `napi_call_function`; its status is an input (it depends on what the
JavaScript function does). -/
def napi_call_function (status : napi_status) (recv : napi_value) (func : Option napi_value)
    (argc : Nat) (w : World) : napi_status × World :=
  (status, w.log (.napi_call_function recv func argc))

/-- The call `napi_get_undefined`: it succeeds on every environment. -/
def napi_get_undefined (w : World) : napi_status × napi_value × World :=
  (.napi_ok, js_undefined, w.log .napi_get_undefined)

/-- Modelled from the spec: the failure branch of the `NAPI_CALL` family of `common.h`
(absent from `src/`).  A runtime call that does not return `napi_ok` is surfaced to the
caller as an error, and the enclosing function returns at once. -/
def NAPI_CALL_failed (status : napi_status) (w : World) : World :=
  napi_throw_error (.failed_call status) w

/-- Modelled from the spec: the failure branch of `NAPI_ASSERT` of `common.h` (absent
from `src/`).  A violated assertion is surfaced to the caller as an error carrying the
message, and the enclosing function returns `NULL`. -/
def NAPI_ASSERT_failed (message : String) (w : World) : World :=
  napi_throw_error (.assertion message) w

/-- Modelled from the spec: `registerKeyboardLayoutChangeListener` (platform layer,
absent from `src/`).  It subscribes to the platform's layout-change events; the
subscription is idempotent and it only keeps the pointer to the record. -/
def registerKeyboardLayoutChangeListener (w : World) : World :=
  { w.log .registerKeyboardLayoutChangeListener with listening := true }

/-! ## The functions of `keymapping.cc` -/

/-- Source `napi_fetch_undefined` (lines 34-38). -/
def napi_fetch_undefined (w : World) : Option napi_value × World :=
  match napi_get_undefined w with
  | (.napi_ok, result, w) => (some result, w)
  | (st, _, w) => (none, NAPI_CALL_failed st w)

/-- Source `invokeNotificationCallback` (lines 46-55). -/
def invokeNotificationCallback (w : World) : Except Fault World :=
  match w.data with
  | none => .error .use_after_free
  | some data =>
    match data.tsfn with
    | none => .ok w
    | some tsfn => .ok (napi_call_threadsafe_function tsfn none .napi_tsfn_blocking w).2

/-- Source `NotifyJS` (lines 57-66).  `call_status` is what `napi_call_function` returns. -/
def NotifyJS (call_status : napi_status) (env : Option napi_env) (func : Option napi_value)
    (_context _data : Option Nat) (w : World) : World :=
  match env with
  | none => w
  | some _ =>
    match napi_get_global w with
    | (.napi_ok, global, w) =>
      let argv : List napi_value := []
      match napi_call_function call_status global func argv.length w with
      | (.napi_ok, w) => w
      | (st, w) => NAPI_CALL_failed st w
    | (st, _, w) => NAPI_CALL_failed st w

/-- Source `FinalizeThreadsafeFunction` (lines 68-72). -/
def FinalizeThreadsafeFunction (_env : napi_env) (_raw_data _hint : Option Nat) (w : World) :
    Except Fault World :=
  let w := (napi_get_instance_data w).2
  match w.data with
  | none => .error .use_after_free
  | some data => .ok { w with data := some { data with tsfn := none } }

/-- The statuses of the two resource-dependent calls of `_OnDidChangeKeyboardLayout`. -/
structure Replies where
  create_string_utf8 : napi_status
  create_threadsafe_function : napi_status
  deriving DecidableEq, Repr

/-- Source `_OnDidChangeKeyboardLayout` (lines 74-100).  The result is the returned
`napi_value` (`none` for `NULL`) and the new world. -/
def _OnDidChangeKeyboardLayout (r : Replies) (_env : napi_env) (info : napi_callback_info)
    (w : World) : Except Fault (Option napi_value × World) :=
  match napi_get_instance_data w with
  | (.napi_ok, w) =>
    match napi_get_cb_info info w with
    | (.napi_ok, argc, args0, _, w) =>
      if argc = 1 then
        match napi_typeof args0 w with
        | (.napi_ok, valuetype0, w) =>
          if valuetype0 = .napi_function then
            let func := args0
            match napi_create_string_utf8 r.create_string_utf8
                "onDidChangeKeyboardLayoutCallback" w with
            | (.napi_ok, _, w) =>
              match napi_create_threadsafe_function r.create_threadsafe_function func 0 1 w with
              | (.napi_ok, tsfn, w) =>
                match w.data with
                | none => .error .use_after_free
                | some data =>
                  let w := { w with data := some { data with tsfn := some tsfn } }
                  let w := registerKeyboardLayoutChangeListener w
                  let (result, w) := napi_fetch_undefined w
                  .ok (result, w)
              | (st, _, w) => .ok (none, NAPI_CALL_failed st w)
            | (st, _, w) => .ok (none, NAPI_CALL_failed st w)
          else
            .ok (none, NAPI_ASSERT_failed
              "Wrong type of arguments. Expects a function as first argument." w)
        | (st, _, w) => .ok (none, NAPI_CALL_failed st w)
      else
        .ok (none, NAPI_ASSERT_failed
          "Wrong number of arguments. Expects a single argument." w)
    | (st, _, _, _, w) => .ok (none, NAPI_CALL_failed st w)
  | (st, w) => .ok (none, NAPI_CALL_failed st w)

/-- Source `DeleteInstanceData` (lines 102-105): `delete data`.  Its `raw_data` is the
pointer to the per-instance record that `Init` handed to the runtime; the world holds
that record, so the pointer is not a parameter here. -/
def DeleteInstanceData (_env : napi_env) (_hint : Option Nat) (w : World) : Except Fault World :=
  match w.data with
  | none => .error .double_free
  | some _ => .ok { w with data := none }

/-- The world right after `Init` (lines 107-109): a value-initialised record
(`tsfn = NULL`), nothing registered, nothing issued. -/
def Init : World :=
  { data := some { tsfn := none }, tsfns := [], fresh := 0, queue := [],
    exception := none, listening := false, trace := [] }

/-! ## The runtime's side of a thread-safe function -/

/-- The environment of the instance. -/
def the_env : napi_env := ⟨0⟩

/-- The runtime delivers the oldest queued dispatch request: it runs the callback given
at creation, `NotifyJS`, with the function the thread-safe function wraps, the context
given at creation (`NULL`) and the request's payload.  `env` is `none` when the
environment is shutting down; the runtime then passes no function either.  A request
against a thread-safe function the runtime no longer holds is discarded. -/
def deliver (call_status : napi_status) (env : Option napi_env) (w : World) : World :=
  match w.queue with
  | [] => w
  | (tsfn, payload) :: rest =>
    let w := { w with queue := rest }
    match w.tsfns.lookup tsfn with
    | none => w
    | some func =>
      match env with
      | none => NotifyJS call_status none none none payload w
      | some e => NotifyJS call_status (some e) (some func) none payload w

/-- The runtime finalizes the thread-safe function `tsfn`: it stops holding it, drops
its queued requests, and runs the finalize callback given at creation,
`FinalizeThreadsafeFunction`, with the finalize data and the context given at creation
(both `NULL`). -/
def finalize_tsfn (tsfn : napi_threadsafe_function) (w : World) : Except Fault World :=
  FinalizeThreadsafeFunction the_env none none
    { w with tsfns := w.tsfns.filter (fun p => p.1 != tsfn),
             queue := w.queue.filter (fun p => p.1 != tsfn) }

/-- One platform event on a running instance: `invokeNotificationCallback`, then the
delivery of the oldest queued request with the environment available and the
JavaScript call returning normally. -/
def fire_event (w : World) : Except Fault World :=
  match invokeNotificationCallback w with
  | .error f => .error f
  | .ok w => .ok (deliver .napi_ok (some the_env) w)

/-- A registration call with the single argument `callback`, on a runtime whose
resource-dependent calls succeed. -/
def register (callback : napi_value) (w : World) : Except Fault (Option napi_value × World) :=
  _OnDidChangeKeyboardLayout ⟨.napi_ok, .napi_ok⟩ the_env ⟨[callback]⟩ w

/-- The dispatch requests (calls of `napi_call_threadsafe_function`) in a trace. -/
def dispatches (trace : List Call) : List Call :=
  trace.filter (fun c =>
    match c with
    | .napi_call_threadsafe_function _ _ _ => true
    | _ => false)

/-- The calls of JavaScript functions (`napi_call_function`) in a trace. -/
def js_calls (trace : List Call) : List Call :=
  trace.filter (fun c =>
    match c with
    | .napi_call_function _ _ _ => true
    | _ => false)

/-- The world a successful registration of `func` leaves. -/
def registered_world (func : napi_value) (w : World) : World :=
  { w with
    data := some { tsfn := some w.fresh },
    tsfns := w.tsfns ++ [(w.fresh, func)],
    fresh := w.fresh + 1,
    listening := true,
    trace := w.trace ++ [Call.napi_get_instance_data, Call.napi_get_cb_info,
      Call.napi_typeof func,
      Call.napi_create_string_utf8 "onDidChangeKeyboardLayoutCallback",
      Call.napi_create_threadsafe_function func 0 1,
      Call.registerKeyboardLayoutChangeListener, Call.napi_get_undefined] }

/-- The world one served event leaves: the dispatch request against `tsfn` and the
call of `func` it led to are in the trace. -/
def served (w : World) (tsfn : napi_threadsafe_function) (func : napi_value) : World :=
  { w with
    trace := w.trace ++ [Call.napi_call_threadsafe_function tsfn none .napi_tsfn_blocking,
      Call.napi_get_global, Call.napi_call_function js_global (some func) 0] }

/-! ## Concrete runs -/

/-- A first JavaScript callback. -/
def callback_1 : napi_value := ⟨.napi_function, 1⟩

/-- A second JavaScript callback. -/
def callback_2 : napi_value := ⟨.napi_function, 2⟩

/-- A run: `callback_1` is registered, one event's dispatch request is accepted and
still queued, then `callback_2` is registered.  The value is the second registration's
result and the world after it. -/
def replaced_in_flight : Except Fault (Option napi_value × World) := do
  let (_, w1) ← register callback_1 Init
  let w2 ← invokeNotificationCallback w1
  register callback_2 w2

/-- A run: `callback_1` is registered and an event fires, `callback_2` is registered and
an event fires, then the runtime runs `DeleteInstanceData`. -/
def torn_down : Except Fault World := do
  let (_, w1) ← register callback_1 Init
  let w2 ← fire_event w1
  let (_, w3) ← register callback_2 w2
  let w4 ← fire_event w3
  DeleteInstanceData the_env none w4

/-- A run: `callback_1` is registered, then the runtime runs `DeleteInstanceData`. -/
def registered_then_deleted : Except Fault World := do
  let (_, w1) ← register callback_1 Init
  DeleteInstanceData the_env none w1

/-! ## Auxiliary facts -/

theorem js_calls_append (a b : List Call) : js_calls (a ++ b) = js_calls a ++ js_calls b := by
  simp [js_calls]

theorem napi_throw_error_trace (err : JsError) (w : World) :
    (napi_throw_error err w).trace = w.trace ++ [.napi_throw_error err] := by
  unfold napi_throw_error World.log
  cases h : w.exception <;> simp [h]

theorem napi_throw_error_exception (err : JsError) (w : World) :
    (napi_throw_error err w).exception.isSome = true := by
  unfold napi_throw_error World.log
  cases h : w.exception <;> simp [h]

theorem napi_throw_error_data (err : JsError) (w : World) :
    (napi_throw_error err w).data = w.data ∧ (napi_throw_error err w).tsfns = w.tsfns
      ∧ (napi_throw_error err w).queue = w.queue
      ∧ (napi_throw_error err w).fresh = w.fresh := by
  unfold napi_throw_error World.log
  cases h : w.exception <;> simp [h]

theorem NotifyJS_trace (call_status : napi_status) (e : napi_env) (func : Option napi_value)
    (context data : Option Nat) (w : World) :
    js_calls (NotifyJS call_status (some e) func context data w).trace
      = js_calls w.trace ++ [.napi_call_function js_global func 0] := by
  cases call_status <;>
    simp [NotifyJS, napi_get_global, napi_call_function, NAPI_CALL_failed,
      napi_throw_error_trace, World.log, js_calls_append] <;>
    simp [js_calls]

/-! ## The claims -/

/-- Claim C1: on a record whose handle is finalized or absent (`tsfn == NULL`),
`invokeNotificationCallback` returns normally and leaves the whole world as it was:
no call is issued (the trace is unchanged, so nothing is dispatched to the thread-safe
function and the callback cannot run), no exception becomes pending, and the record is
unchanged. -/
theorem invokeNotificationCallback_null_noop (w : World)
    (h : w.data = some { tsfn := none }) :
    invokeNotificationCallback w = .ok w := by
  simp [invokeNotificationCallback, h]

theorem invokeNotificationCallback_null_noop_witness :
    Init.data = some { tsfn := none } ∧ invokeNotificationCallback Init = .ok Init :=
  ⟨rfl, invokeNotificationCallback_null_noop Init rfl⟩

/-- Claim C7: delivered with `env == NULL`, `NotifyJS` drops the request: whatever
`func`, `context` and `data` are (and whatever `napi_call_function` would have
returned), the world is returned as it was, so the function is not called, no other
runtime call is issued and no error is raised. -/
theorem NotifyJS_null_env_drops (call_status : napi_status) (func : Option napi_value)
    (context data : Option Nat) (w : World) :
    NotifyJS call_status none func context data w = w := by
  simp [NotifyJS]

/-- Claim C6: on a record whose handle is live (`tsfn != NULL`),
`invokeNotificationCallback` issues exactly one call, a blocking dispatch request
against the stored handle with payload `NULL`; and `NotifyJS`, run with an available
environment, calls the function it is given exactly once, with `argc = 0`.  In
particular, when the runtime delivers that request (the handle wraps `func`, nothing
was queued before), the function called is the registered one. -/
theorem invoke_live_dispatches_once (w : World) (tsfn : napi_threadsafe_function)
    (h : w.data = some { tsfn := some tsfn }) :
    ∃ w1, invokeNotificationCallback w = .ok w1
      ∧ w1.trace = w.trace ++ [.napi_call_threadsafe_function tsfn none .napi_tsfn_blocking]
      ∧ w1.data = w.data ∧ w1.exception = w.exception
      ∧ (∀ call_status e func context data w2,
          js_calls (NotifyJS call_status (some e) func context data w2).trace
            = js_calls w2.trace ++ [.napi_call_function js_global func 0])
      ∧ (∀ func, w.tsfns.lookup tsfn = some func → w.queue = [] →
          w1.queue = [(tsfn, none)]
          ∧ ∀ call_status e,
            js_calls (deliver call_status (some e) w1).trace
              = js_calls w.trace ++ [.napi_call_function js_global (some func) 0]) := by
  refine ⟨(napi_call_threadsafe_function tsfn none .napi_tsfn_blocking w).2,
    by simp [invokeNotificationCallback, h], ?_, ?_, ?_, ?_, ?_⟩
  · unfold napi_call_threadsafe_function World.log
    dsimp only
    split <;> rfl
  · unfold napi_call_threadsafe_function World.log
    dsimp only
    split <;> rfl
  · unfold napi_call_threadsafe_function World.log
    dsimp only
    split <;> rfl
  · intro call_status e func context data w2
    exact NotifyJS_trace call_status e func context data w2
  · intro func hl hq
    have hlive : w.live tsfn = true := by simp [World.live, hl]
    have hw1 : (napi_call_threadsafe_function tsfn none .napi_tsfn_blocking w).2
        = { w with
            trace := w.trace ++ [Call.napi_call_threadsafe_function tsfn none .napi_tsfn_blocking],
            queue := [(tsfn, none)] } := by
      simp [napi_call_threadsafe_function, World.log, World.live, hl, hq]
    rw [hw1]
    refine ⟨rfl, ?_⟩
    intro call_status e
    simp only [deliver, hl]
    rw [NotifyJS_trace]
    simp [js_calls]

theorem invoke_live_dispatches_once_witness :
    ∃ w1, invokeNotificationCallback
        { Init with data := some { tsfn := some 0 }, tsfns := [(0, ⟨.napi_function, 7⟩)],
                    fresh := 1 } = .ok w1
      ∧ w1.trace = [.napi_call_threadsafe_function 0 none .napi_tsfn_blocking] := by
  obtain ⟨w1, h1, h2, _⟩ := invoke_live_dispatches_once
    { Init with data := some { tsfn := some 0 }, tsfns := [(0, ⟨.napi_function, 7⟩)],
                fresh := 1 } 0 rfl
  exact ⟨w1, h1, by simpa [Init] using h2⟩

theorem lookup_filter_ne (l : List (napi_threadsafe_function × napi_value))
    (k t : napi_threadsafe_function) (h : k ≠ t) :
    (l.filter (fun p => p.1 != t)).lookup k = l.lookup k := by
  induction l with
  | nil => rfl
  | cons p l ih =>
    obtain ⟨a, b⟩ := p
    by_cases hat : a = t
    · subst hat
      have hk : (k == a) = false := by simpa using h
      simp [List.filter, List.lookup, hk, ih]
    · have : (a != t) = true := by simpa using hat
      simp only [List.filter, this, List.lookup, ih]

theorem FinalizeThreadsafeFunction_eq (env : napi_env) (raw_data hint : Option Nat) (w : World)
    (d : NotificationCallbackData) (h : w.data = some d) :
    FinalizeThreadsafeFunction env raw_data hint w
      = .ok { w with data := some { tsfn := none },
                     trace := w.trace ++ [Call.napi_get_instance_data] } := by
  simp [FinalizeThreadsafeFunction, napi_get_instance_data, World.log, h]

/-- Claim C8: `FinalizeThreadsafeFunction` clears the liveness and is idempotent: on every
world whose record is allocated it returns with `tsfn == NULL`; run again it returns
with the same record (and the same runtime state); and every
`invokeNotificationCallback` on a world holding the finalized record issues no call at
all. -/
theorem FinalizeThreadsafeFunction_idempotent (env : napi_env) (raw_data hint : Option Nat)
    (w : World) (d : NotificationCallbackData) (h : w.data = some d) :
    ∃ w1 w2, FinalizeThreadsafeFunction env raw_data hint w = .ok w1
      ∧ w1.data = some { tsfn := none }
      ∧ FinalizeThreadsafeFunction env raw_data hint w1 = .ok w2
      ∧ w2.data = w1.data ∧ w2.tsfns = w1.tsfns ∧ w2.queue = w1.queue
      ∧ w2.exception = w1.exception
      ∧ ∀ w3, w3.data = w1.data → invokeNotificationCallback w3 = .ok w3 := by
  refine ⟨_, _, FinalizeThreadsafeFunction_eq env raw_data hint w d h, rfl,
    FinalizeThreadsafeFunction_eq env raw_data hint _ { tsfn := none } rfl,
    rfl, rfl, rfl, rfl, ?_⟩
  intro w3 h3
  simp [invokeNotificationCallback, h3]

theorem FinalizeThreadsafeFunction_idempotent_witness :
    ∃ w1 w2, FinalizeThreadsafeFunction the_env none none
        { Init with data := some { tsfn := some 0 } } = .ok w1
      ∧ w1.data = some { tsfn := none }
      ∧ FinalizeThreadsafeFunction the_env none none w1 = .ok w2
      ∧ w2.data = w1.data := by
  obtain ⟨w1, w2, h1, h2, h3, h4, _⟩ := FinalizeThreadsafeFunction_idempotent the_env none none
    { Init with data := some { tsfn := some 0 } } { tsfn := some 0 } rfl
  exact ⟨w1, w2, h1, h2, h3, h4⟩

/-- Claim C10: `FinalizeThreadsafeFunction` does not look at which handle is being
finalized: its result does not depend on `raw_data` and `hint`, and whichever
thread-safe function `tsfn` the runtime finalizes (the stored one, or one that an
earlier registration stored and a later one replaced), the record's stored handle
becomes `NULL` while every other thread-safe function stays held by the runtime; after
that `invokeNotificationCallback` issues no call, whatever was registered last. -/
theorem FinalizeThreadsafeFunction_ignores_handle (w : World) (d : NotificationCallbackData)
    (h : w.data = some d) :
    (∀ env raw_data hint, FinalizeThreadsafeFunction env raw_data hint w
        = FinalizeThreadsafeFunction the_env none none w)
      ∧ ∀ tsfn, ∃ w1, finalize_tsfn tsfn w = .ok w1
          ∧ w1.data = some { tsfn := none }
          ∧ (∀ other, other ≠ tsfn → w1.tsfns.lookup other = w.tsfns.lookup other)
          ∧ invokeNotificationCallback w1 = .ok w1 := by
  constructor
  · intro env raw_data hint
    rw [FinalizeThreadsafeFunction_eq env raw_data hint w d h,
      FinalizeThreadsafeFunction_eq the_env none none w d h]
  · intro tsfn
    refine ⟨_, FinalizeThreadsafeFunction_eq the_env none none _ d h, rfl, ?_, ?_⟩
    · intro other hne
      exact lookup_filter_ne w.tsfns other tsfn hne
    · simp [invokeNotificationCallback]

theorem FinalizeThreadsafeFunction_ignores_handle_witness :
    ∃ w1, finalize_tsfn 0
        { Init with data := some { tsfn := some 1 },
                    tsfns := [(0, ⟨.napi_function, 1⟩), (1, ⟨.napi_function, 2⟩)],
                    fresh := 2 } = .ok w1
      ∧ w1.data = some { tsfn := none }
      ∧ w1.tsfns.lookup 1 = some ⟨.napi_function, 2⟩
      ∧ invokeNotificationCallback w1 = .ok w1 := by
  obtain ⟨w1, h1, h2, h3, h4⟩ := (FinalizeThreadsafeFunction_ignores_handle
    { Init with data := some { tsfn := some 1 },
                tsfns := [(0, ⟨.napi_function, 1⟩), (1, ⟨.napi_function, 2⟩)],
                fresh := 2 } { tsfn := some 1 } rfl).2 0
  exact ⟨w1, h1, h2, (h3 1 (by decide)).trans rfl, h4⟩

/-- Claim C3: a registration call whose single argument is not a function fails at
once: it returns `NULL` with an exception pending for the caller (the assertion's own
error when none was pending before), whatever the runtime would have answered to the
later calls; no thread-safe function is created (none is requested, and the runtime
holds the same ones as before) and the record, with its stored handle, is as it was. -/
theorem registration_rejects_non_function (r : Replies) (env : napi_env) (v : napi_value)
    (w : World) (hv : v.type ≠ .napi_function) :
    ∃ w1, _OnDidChangeKeyboardLayout r env ⟨[v]⟩ w = .ok (none, w1)
      ∧ w1.exception.isSome = true
      ∧ (w.exception = none → w1.exception = some (.assertion
          "Wrong type of arguments. Expects a function as first argument."))
      ∧ w1.trace = w.trace ++ [.napi_get_instance_data, .napi_get_cb_info, .napi_typeof v,
          .napi_throw_error (.assertion
            "Wrong type of arguments. Expects a function as first argument.")]
      ∧ w1.data = w.data ∧ w1.tsfns = w.tsfns ∧ w1.fresh = w.fresh ∧ w1.queue = w.queue := by
  refine ⟨_, by simp [_OnDidChangeKeyboardLayout, napi_get_instance_data, napi_get_cb_info,
    napi_typeof, hv, NAPI_ASSERT_failed]; rfl, ?_, ?_, ?_, ?_, ?_, ?_, ?_⟩
  · exact napi_throw_error_exception _ _
  · intro hn
    simp [napi_throw_error, World.log, hn]
  · simp [napi_throw_error_trace, World.log]
  · exact (napi_throw_error_data _ _).1
  · exact (napi_throw_error_data _ _).2.1
  · exact (napi_throw_error_data _ _).2.2.2
  · exact (napi_throw_error_data _ _).2.2.1

theorem registration_rejects_non_function_witness :
    ∃ w1, _OnDidChangeKeyboardLayout ⟨.napi_ok, .napi_ok⟩ the_env ⟨[⟨.napi_number, 5⟩]⟩
        { Init with data := some { tsfn := some 0 }, tsfns := [(0, ⟨.napi_function, 1⟩)],
                    fresh := 1 } = .ok (none, w1)
      ∧ w1.exception.isSome = true
      ∧ w1.data = some { tsfn := some 0 } := by
  obtain ⟨w1, h1, h2, _, _, h5, _⟩ := registration_rejects_non_function ⟨.napi_ok, .napi_ok⟩
    the_env ⟨.napi_number, 5⟩
    { Init with data := some { tsfn := some 0 }, tsfns := [(0, ⟨.napi_function, 1⟩)],
                fresh := 1 } (by decide)
  exact ⟨w1, h1, h2, h5⟩

theorem registration_success (r : Replies) (env : napi_env) (info : napi_callback_info)
    (w w1 : World) (v : napi_value)
    (hs : _OnDidChangeKeyboardLayout r env info w = .ok (some v, w1)) :
    ∃ func, info.args = [func] ∧ func.type = .napi_function ∧ w.data.isSome = true
      ∧ v = js_undefined ∧ w1 = registered_world func w := by
  obtain ⟨args⟩ := info
  obtain ⟨s1, s2⟩ := r
  match args with
  | [] => simp [_OnDidChangeKeyboardLayout, napi_get_instance_data, napi_get_cb_info] at hs
  | _ :: _ :: _ =>
    simp [_OnDidChangeKeyboardLayout, napi_get_instance_data, napi_get_cb_info] at hs
  | [func] =>
    by_cases ht : func.type = .napi_function
    · cases s1 <;> cases s2 <;>
        simp [_OnDidChangeKeyboardLayout, napi_get_instance_data, napi_get_cb_info,
          napi_typeof, ht, napi_create_string_utf8, napi_create_threadsafe_function,
          World.log] at hs
      cases hd : w.data with
      | none => simp [hd] at hs
      | some d =>
        simp [hd, registerKeyboardLayoutChangeListener, napi_fetch_undefined,
          napi_get_undefined, World.log] at hs
        refine ⟨func, rfl, ht, rfl, hs.1.symm, ?_⟩
        rw [← hs.2]
        simp [registered_world]
    · simp [_OnDidChangeKeyboardLayout, napi_get_instance_data, napi_get_cb_info,
        napi_typeof, ht] at hs

theorem register_ok (c : napi_value) (hc : c.type = .napi_function) (w : World)
    (d : NotificationCallbackData) (hd : w.data = some d) :
    register c w = .ok (some js_undefined, registered_world c w) := by
  simp [register, _OnDidChangeKeyboardLayout, napi_get_instance_data, napi_get_cb_info,
    napi_typeof, hc, napi_create_string_utf8, napi_create_threadsafe_function, World.log, hd,
    registerKeyboardLayoutChangeListener, napi_fetch_undefined, napi_get_undefined,
    registered_world]

theorem lookup_append_fresh (l : List (napi_threadsafe_function × napi_value))
    (k : napi_threadsafe_function) (v : napi_value) :
    (l ++ [(k, v)]).lookup k = some (((l.lookup k).getD v)) := by
  induction l with
  | nil => simp [List.lookup]
  | cons p l ih =>
    obtain ⟨a, b⟩ := p
    by_cases hka : k = a
    · subst hka
      simp [List.lookup]
    · have : (k == a) = false := by simpa using hka
      simp [List.lookup, this, ih]

theorem lookup_append_old (l : List (napi_threadsafe_function × napi_value))
    (k j : napi_threadsafe_function) (v : napi_value) (h : (l.lookup j).isSome = true) :
    (l ++ [(k, v)]).lookup j = l.lookup j := by
  induction l with
  | nil => simp [List.lookup] at h
  | cons p l ih =>
    obtain ⟨a, b⟩ := p
    by_cases hja : j = a
    · subst hja
      simp [List.lookup]
    · have hf : (j == a) = false := by simpa using hja
      simp only [List.cons_append, List.lookup, hf] at h ⊢
      exact ih h

/-- Counterexample to claim C2 as stated: `callback_1` is registered, one event's request
is queued, and `callback_2` is registered successfully (the call returns `undefined`).
The stored handle is then the new one (`1`), but the old handle (`0`) has not been
finalized: the runtime still holds it, the request queued against it is still queued,
and its delivery calls `callback_1`. -/
theorem replaced_handle_stays_live :
    replaced_in_flight.map (fun p => (p.1, p.2.data, p.2.live 0, p.2.queue,
        js_calls (deliver .napi_ok (some the_env) p.2).trace))
      = .ok (some js_undefined, some { tsfn := some 1 }, true, [(0, none)],
          [.napi_call_function js_global (some callback_1) 0]) := by
  rfl

/-- Claim C2, amended: on a world whose record stores a handle `old` that the runtime
holds, a successful registration call (one that returns a value) had a single function
argument `func`; after it the stored handle is the newly created one, different from
`old` and wrapping `func`, and `invokeNotificationCallback` issues its one dispatch
request against that new handle.  The old handle is not finalized by the call: the
runtime still holds it, and the queued requests are as they were. -/
theorem registration_replaces_stored_handle (r : Replies) (env : napi_env)
    (info : napi_callback_info) (w w1 : World) (old : napi_threadsafe_function)
    (v : napi_value)
    (hd : w.data = some { tsfn := some old }) (hlive : w.live old = true)
    (hfresh : w.live w.fresh = false)
    (hs : _OnDidChangeKeyboardLayout r env info w = .ok (some v, w1)) :
    ∃ func, info.args = [func] ∧ func.type = .napi_function
      ∧ w1.data = some { tsfn := some w.fresh } ∧ w1.data ≠ w.data
      ∧ w1.tsfns.lookup w.fresh = some func
      ∧ w1.live old = true
      ∧ w1.tsfns.lookup old = w.tsfns.lookup old
      ∧ w1.queue = w.queue
      ∧ ∃ w2, invokeNotificationCallback w1 = .ok w2
          ∧ w2.trace = w1.trace ++
              [.napi_call_threadsafe_function w.fresh none .napi_tsfn_blocking] := by
  obtain ⟨func, ha, ht, _, _, hw1⟩ := registration_success r env info w w1 v hs
  subst hw1
  have hnone : w.tsfns.lookup w.fresh = none := by
    simpa [World.live] using hfresh
  have hnew : (w.tsfns ++ [(w.fresh, func)]).lookup w.fresh = some func := by
    rw [lookup_append_fresh, hnone]; rfl
  have hold : (w.tsfns ++ [(w.fresh, func)]).lookup old = w.tsfns.lookup old :=
    lookup_append_old _ _ _ _ (by simpa [World.live] using hlive)
  have hne : w.fresh ≠ old := by
    intro heq
    rw [heq] at hfresh
    rw [hfresh] at hlive
    exact Bool.noConfusion hlive
  refine ⟨func, ha, ht, rfl, ?_, hnew, ?_, hold, rfl, ?_⟩
  · simp [registered_world, hd, hne]
  · simpa [World.live, registered_world, hold] using hlive
  · refine ⟨(napi_call_threadsafe_function w.fresh none .napi_tsfn_blocking
      (registered_world func w)).2, by simp [invokeNotificationCallback, registered_world], ?_⟩
    unfold napi_call_threadsafe_function World.log
    dsimp only
    split <;> rfl

theorem registration_replaces_stored_handle_witness :
    ∃ func, (⟨[callback_2]⟩ : napi_callback_info).args = [func]
      ∧ func.type = .napi_function
      ∧ (registered_world callback_2 (registered_world callback_1 Init)).data
          = some { tsfn := some 1 }
      ∧ (registered_world callback_2 (registered_world callback_1 Init)).live 0 = true := by
  obtain ⟨func, h1, h2, h3, _, _, h6, _⟩ := registration_replaces_stored_handle
    ⟨.napi_ok, .napi_ok⟩ the_env ⟨[callback_2]⟩ (registered_world callback_1 Init)
    (registered_world callback_2 (registered_world callback_1 Init)) 0 js_undefined
    rfl rfl rfl rfl
  exact ⟨func, h1, h2, h3, h6⟩

theorem fire_event_live (w : World) (tsfn : napi_threadsafe_function) (func : napi_value)
    (hd : w.data = some { tsfn := some tsfn }) (hl : w.tsfns.lookup tsfn = some func)
    (hq : w.queue = []) :
    fire_event w = .ok (served w tsfn func) := by
  simp [fire_event, invokeNotificationCallback, hd, napi_call_threadsafe_function,
    World.live, World.log, hl, hq, deliver, NotifyJS, napi_get_global, napi_call_function,
    served]

theorem fire_event_finalized (w : World) (hd : w.data = some { tsfn := none })
    (hq : w.queue = []) :
    fire_event w = .ok w := by
  simp [fire_event, invokeNotificationCallback, hd, deliver, hq]

/-- Counterexample to claim C4 as stated: after `callback_1` and then `callback_2` were
registered and served one event each, `DeleteInstanceData` frees the record without
finalizing anything (the runtime still holds the handle `1` of `callback_2`), and the
next event's `invokeNotificationCallback` reads the freed record: it is not a silent
no-op. -/
theorem event_after_teardown_faults :
    torn_down.map (fun w => (w.data, w.live 1)) = .ok (none, true)
      ∧ torn_down.bind fire_event = .error .use_after_free := by
  exact ⟨rfl, rfl⟩

/-- Claim C4, amended: starting from the state `Init` leaves, for any callbacks `c1` and
`c2` (functions): registering `c1` succeeds and one event then calls `c1` exactly once,
with no argument; registering `c2` succeeds and one event then calls `c2` exactly once
and `c1` not again; and once the runtime has finalized a thread-safe function (which
runs `FinalizeThreadsafeFunction`), one event calls neither `c1` nor `c2`, returns
normally and leaves no exception pending. -/
theorem end_to_end_register_replace_finalize (c1 c2 : napi_value)
    (h1 : c1.type = .napi_function) (h2 : c2.type = .napi_function)
    (tsfn : napi_threadsafe_function) :
    ∃ w1 w2 w3 w4 w5 w6,
      register c1 Init = .ok (some js_undefined, w1)
      ∧ fire_event w1 = .ok w2
      ∧ js_calls w2.trace = [.napi_call_function js_global (some c1) 0]
      ∧ register c2 w2 = .ok (some js_undefined, w3)
      ∧ fire_event w3 = .ok w4
      ∧ js_calls w4.trace = [.napi_call_function js_global (some c1) 0,
          .napi_call_function js_global (some c2) 0]
      ∧ finalize_tsfn tsfn w4 = .ok w5
      ∧ fire_event w5 = .ok w6
      ∧ js_calls w6.trace = js_calls w4.trace
      ∧ dispatches w6.trace = dispatches w4.trace
      ∧ w6.exception = none := by
  have e1 := register_ok c1 h1 Init _ rfl
  have e2 := fire_event_live (registered_world c1 Init) 0 c1 rfl rfl rfl
  have e3 := register_ok c2 h2 (served (registered_world c1 Init) 0 c1) _ rfl
  have e4 := fire_event_live
    (registered_world c2 (served (registered_world c1 Init) 0 c1)) 1 c2 rfl rfl rfl
  have e5 := FinalizeThreadsafeFunction_eq the_env none none
    { served (registered_world c2 (served (registered_world c1 Init) 0 c1)) 1 c2 with
      tsfns := (served (registered_world c2 (served (registered_world c1 Init) 0 c1)) 1
        c2).tsfns.filter (fun p => p.1 != tsfn),
      queue := (served (registered_world c2 (served (registered_world c1 Init) 0 c1)) 1
        c2).queue.filter (fun p => p.1 != tsfn) } _ rfl
  refine ⟨_, _, _, _, _, _, e1, e2, ?_, e3, e4, ?_, e5, fire_event_finalized _ rfl rfl,
    ?_, ?_, rfl⟩
  · simp [served, registered_world, Init, js_calls]
  · simp [served, registered_world, Init, js_calls]
  · simp [served, registered_world, Init, js_calls]
  · simp [served, registered_world, Init, dispatches]

theorem end_to_end_register_replace_finalize_witness :
    ∃ w1 w2 w3 w4 w5 w6,
      register callback_1 Init = .ok (some js_undefined, w1)
      ∧ fire_event w1 = .ok w2
      ∧ register callback_2 w2 = .ok (some js_undefined, w3)
      ∧ fire_event w3 = .ok w4
      ∧ finalize_tsfn 1 w4 = .ok w5
      ∧ fire_event w5 = .ok w6
      ∧ js_calls w6.trace = [.napi_call_function js_global (some callback_1) 0,
          .napi_call_function js_global (some callback_2) 0]
      ∧ w6.exception = none := by
  obtain ⟨w1, w2, w3, w4, w5, w6, a1, a2, _, a4, a5, a6, a7, a8, a9, _, a11⟩ :=
    end_to_end_register_replace_finalize callback_1 callback_2 rfl rfl 1
  exact ⟨w1, w2, w3, w4, w5, w6, a1, a2, a4, a5, a7, a8, a9.trans a6, a11⟩

/-- Counterexample to claim C5 as stated: with `callback_1` registered,
`DeleteInstanceData` returns with the record freed but issues no call (the trace is the
registration's own), so the handle `0` is not finalized and the runtime still holds it;
an `invokeNotificationCallback` issued afterwards reads the freed record, and a second
`DeleteInstanceData` frees it again: neither is a silent no-op. -/
theorem teardown_does_not_finalize :
    registered_then_deleted.map (fun w => (w.data, w.live 0, w.trace))
        = .ok (none, true, (registered_world callback_1 Init).trace)
      ∧ registered_then_deleted.bind invokeNotificationCallback = .error .use_after_free
      ∧ registered_then_deleted.bind (DeleteInstanceData the_env none)
          = .error .double_free := by
  exact ⟨rfl, rfl, rfl⟩

/-- Claim C5, amended: on an allocated record `DeleteInstanceData` frees the record and
does nothing else: it issues no call, and the thread-safe functions the runtime holds
and the queued requests are as before, so it does not finalize the current handle.  The
stored handle is cleared by `FinalizeThreadsafeFunction`; an
`invokeNotificationCallback` issued after that issues no call, and `DeleteInstanceData`
then frees the record as before. -/
theorem DeleteInstanceData_only_frees (env : napi_env) (hint : Option Nat) (w : World)
    (d : NotificationCallbackData) (h : w.data = some d) :
    DeleteInstanceData env hint w = .ok { w with data := none }
      ∧ ∃ w1, FinalizeThreadsafeFunction env none hint w = .ok w1
          ∧ w1.data = some { tsfn := none }
          ∧ invokeNotificationCallback w1 = .ok w1
          ∧ DeleteInstanceData env hint w1 = .ok { w1 with data := none } := by
  refine ⟨by simp [DeleteInstanceData, h], _,
    FinalizeThreadsafeFunction_eq env none hint w d h, rfl, ?_, ?_⟩
  · simp [invokeNotificationCallback]
  · simp [DeleteInstanceData]

theorem DeleteInstanceData_only_frees_witness :
    DeleteInstanceData the_env none (registered_world callback_1 Init)
      = .ok { registered_world callback_1 Init with data := none } :=
  (DeleteInstanceData_only_frees the_env none (registered_world callback_1 Init)
    { tsfn := some 0 } rfl).1

end vscode_keyboard
